import Mathlib

/-!
Shallow embedding of the parser in
src/DoP_Laboration3/DoP_Laboration3/parser.c, an interactive
expression interpreter front end.  Tokens are strings; the external
scanner (scanadt), tree builder (exp.h) and error facility (genlib)
are modelled from the spec, everything else is translated line by
line from parser.c.  Recursion is bounded by an explicit fuel
parameter; exhausting the fuel is a distinguished outcome, never
conflated with a parse result.
-/

/-- A token is its literal text, as handed over by the scanner. -/
abbrev Token := String

/-- Modelled from the spec: the token source state.  The scanner holds
the not yet consumed tokens of the current line plus a pushback slot
that holds at most one token saved by `SaveToken`. -/
structure Scanner where
  saved : Option Token
  rest : List Token
deriving Repr, DecidableEq

/-- Modelled from the spec: the expression tree nodes built by the
external tree builder (exp.h).  One constructor per factory function
called by parser.c. -/
inductive expADT where
  | NewIntegerExp (n : Nat)
  | NewIdentifierExp (name : Token)
  | NewCompoundExp (op : Char) (lhs rhs : expADT)
  | NewCallExp (fn arg : expADT)
  | NewFuncExp (arg : Token) (body : expADT)
  | NewIfExp (lhs : expADT) (relOp : Token) (rhs thenPart elsePart : expADT)
deriving Repr, DecidableEq

/-- Outcome of running a parse routine: a value together with the
scanner state left behind, a raised error (the `Error` calls in
parser.c), an attempt to push a second token into the full pushback
slot, or fuel exhaustion. -/
inductive PResult (α : Type) where
  | ok (val : α) (s : Scanner)
  | err (msg : String)
  | overflow
  | outOfFuel
deriving Repr, DecidableEq

/-- Sequencing of parse routines: errors, overflow and fuel exhaustion
propagate, mirroring how Error unwinds the C call stack. -/
def PResult.bind (r : PResult α) (k : α → Scanner → PResult β) : PResult β :=
  match r with
  | .ok a s => k a s
  | .err m => .err m
  | .overflow => .overflow
  | .outOfFuel => .outOfFuel

/-- True exactly on the overflow outcome. -/
def PResult.isOverflow : PResult α → Bool
  | .overflow => true
  | _ => false

/-- The first character of a token, as C reads token[0]; the empty
token (end of input) yields the NUL character, as in C. -/
def firstChar (t : Token) : Char :=
  match t.data with
  | [] => Char.ofNat 0
  | c :: _ => c

/-- StringToInteger from strlib, on the digit strings produced by the
scanner: the usual base 10 conversion. -/
def StringToInteger (t : Token) : Nat :=
  t.data.foldl (fun acc c => acc * 10 + (c.toNat - 48)) 0

/-- Modelled from the spec: ReadToken of the token source.  It yields
the saved token if the pushback slot is full, otherwise the next
unread token, and the empty token once the input is exhausted. -/
def ReadToken (s : Scanner) : Token × Scanner :=
  match s.saved with
  | some t => (t, ⟨none, s.rest⟩)
  | none =>
    match s.rest with
    | [] => ("", s)
    | t :: ts => (t, ⟨none, ts⟩)

/-- Modelled from the spec: SaveToken of the token source.  The slot
holds at most one token, so saving onto a full slot fails (`none`). -/
def SaveToken (t : Token) (s : Scanner) : Option Scanner :=
  match s.saved with
  | some _ => none
  | none => some ⟨some t, s.rest⟩

/-- Modelled from the spec: GetCallExp of the external tree builder.
The spec says the produced Call node has the parsed atom as callee, so
the accessor yields the expression unchanged. -/
def GetCallExp (e : expADT) : expADT := e

/-- ReadArguments of parser.c: reads exactly one parameter token. -/
def ReadArguments (s : Scanner) : Token × Scanner := ReadToken s

mutual

/-- ReadE of parser.c.  Reads a term, then one more token; on + or -
it recurses for the right operand, otherwise it returns the term.
Note the source has no SaveToken on the fallthrough path: the token
read after the term is dropped when it is neither + nor -. -/
def ReadE : Nat → Scanner → PResult expADT
  | 0, _ => .outOfFuel
  | f + 1, s =>
    (ReadT f s).bind fun exp s1 =>
      let (token, s2) := ReadToken s1
      if token = "+" ∨ token = "-" then
        (ReadE f s2).bind fun rhs s3 =>
          .ok (.NewCompoundExp (firstChar token) exp rhs) s3
      else
        .ok exp s2

/-- ReadT of parser.c.  Reads a call level expression, then one more
token; on * or / it recurses, otherwise it pushes the token back. -/
def ReadT : Nat → Scanner → PResult expADT
  | 0, _ => .outOfFuel
  | f + 1, s =>
    (ReadC f s).bind fun exp s1 =>
      let (token, s2) := ReadToken s1
      if token = "*" ∨ token = "/" then
        (ReadT f s2).bind fun rhs s3 =>
          .ok (.NewCompoundExp (firstChar token) exp rhs) s3
      else
        match SaveToken token s2 with
        | some s3 => .ok exp s3
        | none => .overflow

/-- ReadC of parser.c.  Reads a factor, then one more token; an open
parenthesis starts a call argument, any other token is pushed back. -/
def ReadC : Nat → Scanner → PResult expADT
  | 0, _ => .outOfFuel
  | f + 1, s =>
    (ReadF f s).bind fun exp s1 =>
      let (token, s2) := ReadToken s1
      if token = "(" then
        (ReadE f s2).bind fun arg s3 =>
          .ok (.NewCallExp (GetCallExp exp) arg) s3
      else
        match SaveToken token s2 with
        | some s3 => .ok exp s3
        | none => .overflow

/-- ReadF of parser.c.  Dispatches on the first token: parenthesized
subexpression (the token after it is read but never validated),
integer, func literal, if expression, identifier, or the illegal term
error. -/
def ReadF : Nat → Scanner → PResult expADT
  | 0, _ => .outOfFuel
  | f + 1, s =>
    let (token, s1) := ReadToken s
    if token = "(" then
      (ReadE f s1).bind fun exp s2 =>
        let (_, s3) := ReadToken s2
        .ok exp s3
    else if (firstChar token).isDigit then
      .ok (.NewIntegerExp (StringToInteger token)) s1
    else if (firstChar token).isAlpha then
      if token = "func" then ReadNewFunc f s1
      else if token = "if" then ReadControlStructure f s1
      else .ok (.NewIdentifierExp token) s1
    else
      .err "Illegal term in expression"

/-- ReadNewFunc of parser.c.  Consumes the delimiters around one
parameter token and the body, validating none of them. -/
def ReadNewFunc : Nat → Scanner → PResult expADT
  | 0, _ => .outOfFuel
  | f + 1, s =>
    let (_, s1) := ReadToken s
    let (arg, s2) := ReadArguments s1
    let (_, s3) := ReadToken s2
    let (_, s4) := ReadToken s3
    (ReadE f s4).bind fun body s5 =>
      let (_, s6) := ReadToken s5
      let exp := expADT.NewFuncExp arg body
      let (_, s7) := ReadToken s6
      .ok exp s7

/-- ReadControlStructure of parser.c.  Reads one token and, when that
token is the word if, one more; the token read is discarded either
way.  Then reads the left operand, the relational operator token, the
right operand, the keyword then, the then branch, the keyword else and
the else branch, raising the malformed conditional error when a
keyword is missing. -/
def ReadControlStructure : Nat → Scanner → PResult expADT
  | 0, _ => .outOfFuel
  | f + 1, s =>
    let (token, s1) := ReadToken s
    let s2 := if token = "if" then (ReadToken s1).2 else s1
    (ReadE f s2).bind fun expPre s3 =>
      let (relOp, s4) := ReadToken s3
      (ReadE f s4).bind fun expPost s5 =>
        let (thenKeyWord, s6) := ReadToken s5
        if thenKeyWord = "then" then
          (ReadE f s6).bind fun expThen s7 =>
            let (elseKeyWord, s8) := ReadToken s7
            if elseKeyWord = "else" then
              (ReadE f s8).bind fun expElse s9 =>
                .ok (.NewIfExp expPre relOp expPost expThen expElse) s9
            else
              .err "Syntactical error in If statement"
        else
          .err "Syntactical error in If statement"

end

/-- CheckCommandToken of parser.c.  Reads a token; if it does not
start with the command marker it is pushed back and the empty command
is returned, otherwise the next token is concatenated onto it. -/
def CheckCommandToken (s : Scanner) : PResult Token :=
  let (token, s1) := ReadToken s
  if firstChar token = ':' then
    let (t2, s2) := ReadToken s1
    .ok (token ++ t2) s2
  else
    match SaveToken token s1 with
    | some s2 => .ok "" s2
    | none => .overflow

/-- ReadCommand of parser.c.  The define command reads an identifier
token and an operator token and builds an assignment shaped compound
node around the following expression; load and unknown commands build
identifier nodes. -/
def ReadCommand : Nat → Scanner → Token → PResult expADT
  | 0, _, _ => .outOfFuel
  | f + 1, s, command =>
    if command = ":define" then
      let (id, s1) := ReadToken s
      let (op, s2) := ReadToken s1
      (ReadE f s2).bind fun val s3 =>
        .ok (.NewCompoundExp (firstChar op) (.NewIdentifierExp id) val) s3
    else if command = ":load" then
      .ok (.NewIdentifierExp ":load") s
    else
      .ok (.NewIdentifierExp command) s

/-- ParseExp of parser.c: the entry point for one input line. -/
def ParseExp : Nat → Scanner → PResult expADT
  | 0, _ => .outOfFuel
  | f + 1, s =>
    (CheckCommandToken s).bind fun command s1 =>
      if command = "" then ReadE f s1
      else ReadCommand f s1 command

/-- Modelled from the spec: one step of the external scanner set to
ignore spaces.  Working from the right, a space leaves a separator, a
digit extends a digit led token, a letter extends a letter led token,
and any other character stands alone. -/
def joinChar (c : Char) (toks : List Token) : List Token :=
  if c = ' ' then "" :: toks
  else if c.isDigit then
    match toks with
    | t :: ts =>
      if (firstChar t).isDigit then String.mk (c :: t.data) :: ts
      else String.mk [c] :: toks
    | [] => [String.mk [c]]
  else if c.isAlpha then
    match toks with
    | t :: ts =>
      if (firstChar t).isAlpha then String.mk (c :: t.data) :: ts
      else String.mk [c] :: toks
    | [] => [String.mk [c]]
  else
    String.mk [c] :: toks

/-- Modelled from the spec: tokenization of one input line, maximal
digit runs and letter runs, every other non space character a one
character token. -/
def scanTokens (cs : List Char) : List Token :=
  (cs.foldr joinChar []).filter (fun t => !(t == ""))

/-- A fresh scanner for one input line, pushback slot empty. -/
def mkScanner (line : String) : Scanner :=
  ⟨none, scanTokens line.data⟩

/-- After any ReadToken the pushback slot is empty: both branches that
consume a token clear it, and at end of input it was empty already. -/
theorem ReadToken_saved_none (s : Scanner) : (ReadToken s).2.saved = none := by
  rcases s with ⟨saved, rest⟩
  cases saved <;> cases rest <;> rfl

/-- SaveToken succeeds whenever the pushback slot is empty. -/
theorem SaveToken_of_saved_none (t : Token) {s : Scanner} (h : s.saved = none) :
    SaveToken t s = some ⟨some t, s.rest⟩ := by
  rcases s with ⟨saved, rest⟩
  simp only at h
  subst h
  rfl

/-- An ok outcome is not the overflow outcome. -/
theorem ok_not_overflow (a : α) (s : Scanner) : PResult.ok a s ≠ PResult.overflow :=
  fun h => PResult.noConfusion h

/-- An error outcome is not the overflow outcome. -/
theorem err_not_overflow (m : String) : (PResult.err m : PResult α) ≠ PResult.overflow :=
  fun h => PResult.noConfusion h

/-- Sequencing cannot create an overflow that neither part produces. -/
theorem bind_not_overflow {α β : Type} {r : PResult α} {k : α → Scanner → PResult β}
    (h1 : r ≠ PResult.overflow) (h2 : ∀ a s, k a s ≠ PResult.overflow) :
    r.bind k ≠ PResult.overflow := by
  cases r with
  | ok a s => exact h2 a s
  | err m => exact fun h => PResult.noConfusion h
  | overflow => exact absurd rfl h1
  | outOfFuel => exact fun h => PResult.noConfusion h

/-- No expression parsing routine, run from any scanner state and with
any fuel, ever pushes a token onto a full pushback slot: every
SaveToken in parser.c happens right after a ReadToken, which empties
the slot. -/
theorem parse_routines_no_overflow (f : Nat) :
    (∀ s, ReadE f s ≠ PResult.overflow) ∧ (∀ s, ReadT f s ≠ PResult.overflow) ∧
    (∀ s, ReadC f s ≠ PResult.overflow) ∧ (∀ s, ReadF f s ≠ PResult.overflow) ∧
    (∀ s, ReadNewFunc f s ≠ PResult.overflow) ∧
    (∀ s, ReadControlStructure f s ≠ PResult.overflow) := by
  induction f with
  | zero =>
    refine ⟨?_, ?_, ?_, ?_, ?_, ?_⟩ <;> intro s <;> exact fun h => PResult.noConfusion h
  | succ f ih =>
    obtain ⟨ihE, ihT, ihC, ihF, ihN, ihS⟩ := ih
    refine ⟨?_, ?_, ?_, ?_, ?_, ?_⟩ <;> intro s
    · rw [ReadE]
      refine bind_not_overflow (ihT s) ?_
      intro exp s1
      dsimp only
      split
      · exact bind_not_overflow (ihE _) fun rhs s3 => ok_not_overflow _ _
      · exact ok_not_overflow _ _
    · rw [ReadT]
      refine bind_not_overflow (ihC s) ?_
      intro exp s1
      dsimp only
      split
      · exact bind_not_overflow (ihT _) fun rhs s3 => ok_not_overflow _ _
      · rw [SaveToken_of_saved_none _ (ReadToken_saved_none s1)]
        exact ok_not_overflow _ _
    · rw [ReadC]
      refine bind_not_overflow (ihF s) ?_
      intro exp s1
      dsimp only
      split
      · exact bind_not_overflow (ihE _) fun arg s3 => ok_not_overflow _ _
      · rw [SaveToken_of_saved_none _ (ReadToken_saved_none s1)]
        exact ok_not_overflow _ _
    · rw [ReadF]
      dsimp only
      split
      · exact bind_not_overflow (ihE _) fun exp s2 => ok_not_overflow _ _
      · split
        · exact ok_not_overflow _ _
        · split
          · split
            · exact ihN _
            · split
              · exact ihS _
              · exact ok_not_overflow _ _
          · exact err_not_overflow _
    · rw [ReadNewFunc]
      exact bind_not_overflow (ihE _) fun body s5 => ok_not_overflow _ _
    · rw [ReadControlStructure]
      refine bind_not_overflow (ihE _) ?_
      intro expPre s3
      refine bind_not_overflow (ihE _) ?_
      intro expPost s5
      dsimp only
      split
      · refine bind_not_overflow (ihE _) ?_
        intro expThen s7
        dsimp only
        split
        · exact bind_not_overflow (ihE _) fun expElse s9 => ok_not_overflow _ _
        · exact err_not_overflow _
      · exact err_not_overflow _

/-- CheckCommandToken never overflows: its only SaveToken follows its
first ReadToken. -/
theorem CheckCommandToken_no_overflow (s : Scanner) :
    CheckCommandToken s ≠ PResult.overflow := by
  rw [CheckCommandToken]
  dsimp only
  split
  · exact ok_not_overflow _ _
  · rw [SaveToken_of_saved_none _ (ReadToken_saved_none s)]
    exact ok_not_overflow _ _

/-- ReadCommand never overflows. -/
theorem ReadCommand_no_overflow (f : Nat) (s : Scanner) (command : Token) :
    ReadCommand f s command ≠ PResult.overflow := by
  cases f with
  | zero => exact fun h => PResult.noConfusion h
  | succ f =>
    rw [ReadCommand]
    dsimp only
    split
    · exact bind_not_overflow ((parse_routines_no_overflow f).1 _)
        fun val s3 => ok_not_overflow _ _
    · split
      · exact ok_not_overflow _ _
      · exact ok_not_overflow _ _

/-- ParseExp never overflows, from any scanner state. -/
theorem ParseExp_no_overflow (f : Nat) (s : Scanner) :
    ParseExp f s ≠ PResult.overflow := by
  cases f with
  | zero => exact fun h => PResult.noConfusion h
  | succ f =>
    rw [ParseExp]
    refine bind_not_overflow (CheckCommandToken_no_overflow s) ?_
    intro command s1
    dsimp only
    split
    · exact (parse_routines_no_overflow f).1 s1
    · exact ReadCommand_no_overflow f s1 command


/-- Claim C1: the claim says ReadE, on reading a token that is neither
+ nor -, pushes it back like ReadT does.  The code evaluated on the
tokens 1 and a closing parenthesis shows the opposite: ReadE returns
with the parenthesis gone from the scanner (neither saved nor unread),
while ReadT on the very same tokens leaves it in the pushback slot.
The missing SaveToken on the fallthrough path of ReadE discards the
terminating token. -/
theorem C1_ReadE_discards_terminating_token :
    ReadE 10 ⟨none, ["1", ")"]⟩ = .ok (.NewIntegerExp 1) ⟨none, []⟩ ∧
    ReadT 10 ⟨none, ["1", ")"]⟩ = .ok (.NewIntegerExp 1) ⟨some ")", []⟩ := by
  exact ⟨rfl, rfl⟩

/-- Claim C2: the claim says every well formed arithmetic expression
parses by the standard precedence table, in particular (1+2)*3 as a
product.  Evaluating the code on (1+2)*3 instead yields only the sum
of 1 and 2: the inner ReadE consumes the closing parenthesis, the
unvalidated ReadToken after the group then consumes the star, and the
trailing 3 is read and dropped. -/
theorem C2_paren_product_loses_operator :
    ParseExp 20 (mkScanner "(1+2)*3") =
      .ok (.NewCompoundExp '+' (.NewIntegerExp 1) (.NewIntegerExp 2)) ⟨none, []⟩ := by
  exact rfl

/-- Claim C3: the claim says the line with if, x, a comparison to 0
and both branches parses to a Conditional node.  Evaluating the code
on that line raises the illegal term error instead:
ReadControlStructure reads and discards the token after the already
consumed if keyword (here the identifier x), so the left operand parse
starts at the comparison sign, which no factor rule accepts. -/
theorem C3_if_line_raises_illegal_term :
    ParseExp 30 (mkScanner "if x < 0 then 0 else x") =
      .err "Illegal term in expression" := by
  exact rfl

/-- Claim C4: the claim says a conditional missing its then or else
keyword raises the malformed conditional error.  Evaluating the code
on both inputs of the claim raises the illegal term error instead,
because ReadControlStructure discards the token after if (the
identifier a) and the left operand parse then starts at the comparison
sign; neither keyword check is ever reached. -/
theorem C4_missing_keyword_raises_illegal_term :
    ParseExp 30 (mkScanner "if a < b then c else") =
      .err "Illegal term in expression" ∧
    ParseExp 30 (mkScanner "if a < b c else d") =
      .err "Illegal term in expression" := by
  exact ⟨rfl, rfl⟩

/-- Claim C5: parsing 1 + 2 + 3 yields the right nested sum of 1 with
the sum of 2 and 3, and likewise the multiplicative chain 2 * 3 * 4
yields the right nested product, because each level recurses into a
full parse of the same level for its right operand. -/
theorem C5_operator_chains_right_nested :
    ParseExp 20 (mkScanner "1 + 2 + 3") =
      .ok (.NewCompoundExp '+' (.NewIntegerExp 1)
        (.NewCompoundExp '+' (.NewIntegerExp 2) (.NewIntegerExp 3))) ⟨none, []⟩ ∧
    ParseExp 20 (mkScanner "2 * 3 * 4") =
      .ok (.NewCompoundExp '*' (.NewIntegerExp 2)
        (.NewCompoundExp '*' (.NewIntegerExp 3) (.NewIntegerExp 4))) ⟨none, []⟩ := by
  exact ⟨rfl, rfl⟩

/-- Claim C6: an atom becomes the callee of a call exactly when the
next token is an open parenthesis: f(1) parses to a call of f on 1,
while f + 1 parses to a sum with no call node. -/
theorem C6_call_disambiguation :
    ParseExp 20 (mkScanner "f(1)") =
      .ok (.NewCallExp (.NewIdentifierExp "f") (.NewIntegerExp 1)) ⟨none, []⟩ ∧
    ParseExp 20 (mkScanner "f + 1") =
      .ok (.NewCompoundExp '+' (.NewIdentifierExp "f") (.NewIntegerExp 1)) ⟨none, []⟩ := by
  exact ⟨rfl, rfl⟩

/-- Claim C7: a define command line, tokenized as the marker, the word
define, an identifier, an operator token and expression tokens, parses
to a compound node whose operator is the first character of the given
operator token and whose operands are the identifier and the
expression parsed by ReadE; the witness instantiates this to the line
defining x as 5. -/
theorem C7_define_builds_assignment (id op : Token) (rest : List Token) (f : Nat)
    (val : expADT) (s' : Scanner) (h : ReadE f ⟨none, rest⟩ = .ok val s') :
    ParseExp (f + 2) ⟨none, ":" :: "define" :: id :: op :: rest⟩ =
      .ok (.NewCompoundExp (firstChar op) (.NewIdentifierExp id) val) s' := by
  have hstep : ParseExp (f + 2) ⟨none, ":" :: "define" :: id :: op :: rest⟩ =
      (ReadE f ⟨none, rest⟩).bind fun v s3 =>
        .ok (.NewCompoundExp (firstChar op) (.NewIdentifierExp id) v) s3 := rfl
  rw [hstep, h]
  exact rfl

/-- Witness for claim C7: the line defining x as 5 parses to the
assignment shaped compound node binding x to the integer 5. -/
theorem C7_define_builds_assignment_witness :
    ParseExp 20 (mkScanner ":define x = 5") =
      .ok (.NewCompoundExp '=' (.NewIdentifierExp "x") (.NewIntegerExp 5)) ⟨none, []⟩ :=
  C7_define_builds_assignment "x" "=" ["5"] 18 (.NewIntegerExp 5) ⟨none, []⟩ rfl

/-- Claim C8: the func literal line with parameter n and body n * 2
parses, with no error raised, to a function literal node with
parameter n and the product body. -/
theorem C8_func_literal :
    ParseExp 30 (mkScanner "func (n) \x7b n * 2 \x7d") =
      .ok (.NewFuncExp "n"
        (.NewCompoundExp '*' (.NewIdentifierExp "n") (.NewIntegerExp 2))) ⟨none, []⟩ := by
  exact rfl

/-- Claim C9: throughout every parse of one input line, the pushback
slot holds at most one token: for any fuel and any scanner state,
running ParseExp never attempts a second SaveToken without an
intervening ReadToken, that is, the overflow outcome is unreachable. -/
theorem C9_pushback_slot_never_overflows (fuel : Nat) (s : Scanner) :
    (ParseExp fuel s).isOverflow = false := by
  have h := ParseExp_no_overflow fuel s
  cases hr : ParseExp fuel s with
  | ok a s1 => rfl
  | err m => rfl
  | overflow => exact absurd hr h
  | outOfFuel => rfl

/-- Claim C10: a missing closing parenthesis at end of input is
silently accepted: the line (1+2 with no closing parenthesis parses
with no error to the same sum node as the line (1+2) with it. -/
theorem C10_missing_close_paren_accepted :
    ParseExp 20 (mkScanner "(1+2") =
      .ok (.NewCompoundExp '+' (.NewIntegerExp 1) (.NewIntegerExp 2)) ⟨none, []⟩ ∧
    ParseExp 20 (mkScanner "(1+2)") =
      .ok (.NewCompoundExp '+' (.NewIntegerExp 1) (.NewIntegerExp 2)) ⟨none, []⟩ := by
  exact ⟨rfl, rfl⟩
